import Mathlib

/-!
# Verification of check_tikapy_bgp_peer

A shallow embedding of the core logic of `check_tikapy_bgp_peer.py`, a
nagios/icinga plugin checking the status of a BGP peer on a MikroTik
RouterOS device, together with theorems about it.

The embedded parts are:
* the status classifier: the `try/except KeyError` block of `main`
  (source lines 161–182) together with the top-level
  `except Exception` guard of the `__main__` block (lines 184–189);
* the record resolution logic of `BgpMixin.get_peer_details`
  (lines 47–59): emptiness check, ambiguity check, `popitem`;
* the query-filter construction of `BgpMixin.get_peer_details`
  (lines 38–42), which delegates address parsing to the standard
  library function `ipaddress.ip_address`; that parser (IPv4 and IPv6
  literal parsing and canonical printing) is embedded as well.

Python dictionaries of string fields are modelled as association lists
in insertion order; `dict.popitem` removes the most recently inserted
entry (LIFO order, as guaranteed since Python 3.7).  Python exceptions
are modelled with `Except`.
-/

namespace Tikapy

/-- Monitoring severity of a verdict, per the nagios plugin convention. -/
inductive Severity where
  | ok
  | warning
  | critical
  | unknown
  deriving DecidableEq, Repr

/-- A verdict: severity plus the human-readable plugin output line. -/
structure Verdict where
  sev : Severity
  msg : String
  deriving DecidableEq, Repr

/-- Python exceptions that the embedded classifier code can raise:
`KeyError(k)` from a failed `peer_details[k]` subscript. -/
inductive PyExc where
  | keyError (k : String)
  deriving DecidableEq, Repr

/-- A peer record: the string-to-string mapping returned by the API for
one BGP peer, in insertion order. -/
def PeerRecord := List (String × String)

instance : DecidableEq PeerRecord := by
  unfold PeerRecord
  infer_instance

/-- `pyGet r k` models the Python dict lookup `r.get(k)` / `r[k]`:
the value at key `k`, or `none` when the key is absent. -/
def pyGet (r : PeerRecord) (k : String) : Option String :=
  match r with
  | [] => none
  | (k', v) :: t => if k' = k then some v else pyGet t k

/-- `peer_details[k]`: a subscript that raises `KeyError(k)` when the
key is absent. -/
def pyItem (r : PeerRecord) (k : String) : Except PyExc String :=
  match pyGet r k with
  | some v => .ok v
  | none => .error (.keyError k)

/-- Truthiness of `r.get('disabled', False)`: the default `False` is
falsy, and a string value is truthy exactly when it is non-empty. -/
def pyTruthyField (v : Option String) : Bool :=
  match v with
  | none => false
  | some s => s ≠ ""

/-- Message of `exit_ok` (line 170): `'Session to {remote} ({remoteas})
established for {uptime}'` after formatting. -/
def fmtOk (remote remoteas uptime : String) : String :=
  "Session to " ++ remote ++ " (" ++ remoteas ++ ") established for " ++ uptime

/-- Message of `exit_critical` (line 164): `'Session to {remote}
({remoteas}) in {state} state'` after formatting. -/
def fmtCritical (remote remoteas state : String) : String :=
  "Session to " ++ remote ++ " (" ++ remoteas ++ ") in " ++ state ++ " state"

/-- Message of `exit_warning` (line 178): `'Session to {remote}
(AS{remoteas}) disabled'` after formatting. -/
def fmtWarning (remote remoteas : String) : String :=
  "Session to " ++ remote ++ " (AS" ++ remoteas ++ ") disabled"

/-- Message of `exit_unknown` at line 182; `str(KeyError(k))` renders
as the repr of the key, i.e. `'k'` with quotes. -/
def fmtParseFail (k : String) : String :=
  "Could not parse peer details: '" ++ k ++ "'"

/-- Message of `exit_unknown` in the `__main__` guard (line 189),
formatted with `%s` on the exception. -/
def fmtUnhandled (k : String) : String :=
  "Unhandled error occured: '" ++ k ++ "'"

/-- The `try` body of the classifier (lines 162–174).  Field accesses
are performed in Python evaluation order: the `state` subscript in the
condition first, then the keyword arguments of the `exit_*` call left
to right.  Any failed subscript raises `KeyError`. -/
def classifyTry (r : PeerRecord) : Except PyExc Verdict :=
  match pyItem r "state" with
  | .error e => .error e
  | .ok state =>
    if state ≠ "established" then
      match pyItem r "remote-address" with
      | .error e => .error e
      | .ok remote =>
        match pyItem r "remote-as" with
        | .error e => .error e
        | .ok remoteas =>
          match pyItem r "state" with
          | .error e => .error e
          | .ok state₂ => .ok ⟨.critical, fmtCritical remote remoteas state₂⟩
    else
      match pyItem r "remote-address" with
      | .error e => .error e
      | .ok remote =>
        match pyItem r "remote-as" with
        | .error e => .error e
        | .ok remoteas =>
          match pyItem r "uptime" with
          | .error e => .error e
          | .ok uptime => .ok ⟨.ok, fmtOk remote remoteas uptime⟩

/-- The classifier (lines 161–182): the `try` body, with `KeyError`
handled by the `except` block.  In the handler, a truthy `disabled`
field leads to `exit_warning`, whose arguments `remote-address` and
`remote-as` are themselves subscripts: if one of them is absent the
`KeyError` raised there propagates out of the handler (the surrounding
`try` no longer applies), hence the `Except` result type. -/
def classify (r : PeerRecord) : Except PyExc Verdict :=
  match classifyTry r with
  | .ok v => .ok v
  | .error (.keyError k) =>
    if pyTruthyField (pyGet r "disabled") then
      match pyItem r "remote-address" with
      | .error e => .error e
      | .ok remote =>
        match pyItem r "remote-as" with
        | .error e => .error e
        | .ok remoteas => .ok ⟨.warning, fmtWarning remote remoteas⟩
    else
      .ok ⟨.unknown, fmtParseFail k⟩

/-- The classifier as run under the `__main__` guard (lines 184–189):
any exception escaping `main` is caught by `except Exception` and
turned into an `UNKNOWN` verdict. -/
def classifyFull (r : PeerRecord) : Verdict :=
  match classify r with
  | .ok v => v
  | .error (.keyError k) => ⟨.unknown, fmtUnhandled k⟩

/-! ## Record resolution (`BgpMixin.get_peer_details`, lines 47–59) -/

/-- A value `self.talk(...)` may have returned.  The expected shape is a
dictionary mapping record ids to peer records; the other constructors
model unexpected shapes the resolution code has to contend with:
a list of records, a bare string, or `None`. -/
inductive ApiValue where
  | dict (entries : List (String × PeerRecord))
  | list (xs : List PeerRecord)
  | str (s : String)
  | pynone
  deriving DecidableEq

/-- Python truthiness of an API value, as tested by `if not result:`
(line 47): containers and strings are truthy iff non-empty, `None` is
falsy. -/
def pyTruthy : ApiValue → Bool
  | .dict es => !es.isEmpty
  | .list xs => !xs.isEmpty
  | .str s => s ≠ ""
  | .pynone => false

/-- `len(result)` (line 49).  `len(None)` would raise `TypeError`, but
line 49 is only reached for truthy values and `None` is falsy, so the
`pynone` case is unreachable; it is given the harmless value `0`. -/
def pyLen : ApiValue → Nat
  | .dict es => es.length
  | .list xs => xs.length
  | .str s => s.length
  | .pynone => 0

/-- The three `PluginError` raise sites of `get_peer_details`, under
the names the specification gives them. -/
inductive ResolveErr where
  | notConfigured
  | ambiguousResult
  | malformedResponse
  deriving DecidableEq, Repr

/-- The resolution logic of `get_peer_details` (lines 47–59), acting on
the value returned by `self.talk`:
* a falsy result raises `PluginError("Peer '%s' not configured")`;
* a result of length > 1 raises `PluginError('API returned more than
  one record, ...')`;
* otherwise `result.popitem()` is attempted; on a non-dict this raises
  `AttributeError` (or `TypeError`), caught and re-raised as
  `PluginError('API did not return dict, ...')`.

`dict.popitem()` removes and returns the most recently inserted entry,
so on success the single record value is returned together with the
mutated dictionary (its key, a transport record id, is discarded). -/
def resolve (result : ApiValue) : Except ResolveErr (PeerRecord × ApiValue) :=
  if !pyTruthy result then
    .error .notConfigured
  else if pyLen result > 1 then
    .error .ambiguousResult
  else
    match result with
    | .dict es =>
      match es.getLast? with
      | some (_, pd) => .ok (pd, .dict es.dropLast)
      | none => .error .notConfigured  -- unreachable: a truthy dict is non-empty
    | _ => .error .malformedResponse

/-! ## Address parsing (Python stdlib `ipaddress.ip_address`)

`get_peer_details` (lines 38–42) decides between an address filter and
a name filter by attempting `ipaddress.ip_address(peer)`.  The
embedding below follows CPython's `ipaddress` module:
`IPv4Address._parse_octet` / `IPv6Address._ip_int_from_string` for
parsing and `__str__` / `_compress_hextets` for canonical printing.
`ValueError` is modelled as `none` (it is the only exception
`ip_address` raises on a string argument). -/

/-- A parsed IP address: four octets (each < 256) for IPv4, eight
16-bit groups for IPv6. -/
inductive IpAddr where
  | v4 (octets : List Nat)
  | v6 (groups : List Nat)
  deriving DecidableEq, Repr

/-- Splitting a string's characters on a separator, Python
`str.split(sep)` style: `n` separators yield `n + 1` (possibly empty)
pieces, and the empty string yields one empty piece. -/
def pySplitAux (sep : Char) : List Char → List Char → List (List Char)
  | [], acc => [acc.reverse]
  | c :: t, acc =>
    if c = sep then acc.reverse :: pySplitAux sep t []
    else pySplitAux sep t (c :: acc)

/-- Python `s.split(sep)` for a single-character separator. -/
def pySplit (sep : Char) (s : String) : List String :=
  (pySplitAux sep s.data []).map String.mk

/-- Hexadecimal digits, ASCII only (as in `ipaddress._HEX_DIGITS`). -/
def isHexDigitChar (c : Char) : Bool :=
  c.isDigit || ('a' ≤ c && c ≤ 'f') || ('A' ≤ c && c ≤ 'F')

/-- Numeric value of a hexadecimal digit. -/
def hexVal (c : Char) : Nat :=
  if c.isDigit then c.toNat - 48
  else if 'a' ≤ c && c ≤ 'f' then c.toNat - 87
  else c.toNat - 55

/-- One dotted-quad octet (`IPv4Address._parse_octet`): decimal digits
only, at most 3 of them, no leading zero, value at most 255. -/
def parseOctet (s : String) : Option Nat :=
  if s = "" then none
  else if !s.data.all Char.isDigit then none
  else if s.length > 3 then none
  else if s.length > 1 && s.front = '0' then none
  else
    let n := s.data.foldl (fun n c => 10 * n + (c.toNat - 48)) 0
    if n ≤ 255 then some n else none

/-- An IPv4 address literal: exactly four octets separated by dots. -/
def parseV4 (s : String) : Option (List Nat) :=
  let parts := pySplit '.' s
  if parts.length = 4 then parts.mapM parseOctet else none

/-- One IPv6 hextet (`IPv6Address._parse_hextet`): hexadecimal digits
only, at least one and at most 4 of them (leading zeroes allowed). -/
def parseHextet (s : String) : Option Nat :=
  if s = "" then none
  else if !s.data.all isHexDigitChar then none
  else if s.length > 4 then none
  else some (s.data.foldl (fun n c => 16 * n + hexVal c) 0)

/-- Lowercase hexadecimal digit character. -/
def hexDigitChar (n : Nat) : Char :=
  if n < 10 then Char.ofNat (48 + n) else Char.ofNat (87 + n)

/-- Hexadecimal digits of `n`, most significant first (`fuel` bounds
the recursion; 32 digits are ample for every value used here). -/
def natToHexAux : Nat → Nat → List Char
  | 0, _ => []
  | fuel + 1, n => if n = 0 then [] else natToHexAux fuel (n / 16) ++ [hexDigitChar (n % 16)]

/-- `'%x' % n`: lowercase hexadecimal rendering without padding. -/
def natToHex (n : Nat) : String :=
  if n = 0 then "0" else ⟨natToHexAux 32 n⟩

/-- Decimal digits of `n`, most significant first. -/
def natToDecAux : Nat → Nat → List Char
  | 0, _ => []
  | fuel + 1, n => if n = 0 then [] else natToDecAux fuel (n / 10) ++ [Char.ofNat (48 + n % 10)]

/-- `'%d' % n`: decimal rendering. -/
def natToDec (n : Nat) : String :=
  if n = 0 then "0" else ⟨natToDecAux 32 n⟩

/-- An IPv6 address literal (`IPv6Address._ip_int_from_string`), as the
list of its eight groups.  Mirrors CPython step by step: split on
colons; at least 3 and (after an embedded IPv4 suffix is expanded into
two hextets) at most 9 parts; at most one empty inner part, marking the
`::`; a leading or trailing empty part only as part of a leading or
trailing `::`; without `::` exactly 8 parts, with `::` at least one
group elided. -/
def parseV6 (s : String) : Option (List Nat) :=
  let parts := pySplit ':' s
  if parts.length < 3 then none
  else
    let withV4 : Option (List String) :=
      if (parts.getLastD "").data.contains '.' then
        match parseV4 (parts.getLastD "") with
        | some [a, b, c, d] =>
          some (parts.dropLast ++ [natToHex (a * 256 + b), natToHex (c * 256 + d)])
        | _ => none
      else some parts
    match withV4 with
    | none => none
    | some parts =>
      if parts.length > 9 then none
      else
        match ((List.range parts.length).drop 1).dropLast.filter
            (fun i => parts.getD i "x" = "") with
        | [] =>
          if parts.length ≠ 8 then none
          else if parts.headD "x" = "" then none
          else if parts.getLastD "x" = "" then none
          else parts.mapM parseHextet
        | [skipIndex] => do
          let partsHi ←
            if parts.headD "x" = "" then
              if skipIndex = 1 then some 0 else none
            else some skipIndex
          let lo := parts.length - skipIndex - 1
          let partsLo ←
            if parts.getLastD "x" = "" then
              if lo = 1 then some 0 else none
            else some lo
          if partsHi + partsLo ≥ 8 then none
          else do
            let hiGroups ← (parts.take partsHi).mapM parseHextet
            let loGroups ← (parts.drop (parts.length - partsLo)).mapM parseHextet
            return hiGroups ++ List.replicate (8 - (partsHi + partsLo)) 0 ++ loGroups
        | _ => none

/-- `ipaddress.ip_address(s)` on a string: try IPv4 first, then IPv6;
`none` models the `ValueError` raised when neither succeeds. -/
def ip_address (s : String) : Option IpAddr :=
  match parseV4 s with
  | some o => some (.v4 o)
  | none =>
    match parseV6 s with
    | some g => some (.v6 g)
    | none => none

/-- Longest run of `"0"` hextets (`_compress_hextets`, first loop):
returns its start index and length; ties go to the leftmost run. -/
def bestZeroRun (hextets : List String) : Option Nat × Nat :=
  (hextets.enum.foldl
    (fun st p =>
      let ((bestStart, bestLen), (curStart, curLen)) := st
      if p.2 = "0" then
        let curLen := curLen + 1
        let curStart := curStart.getD p.1
        if curLen > bestLen then ((some curStart, curLen), (some curStart, curLen))
        else ((bestStart, bestLen), (some curStart, curLen))
      else ((bestStart, bestLen), (none, 0)))
    ((none, 0), (none, 0))).1

/-- `_compress_hextets`: replace the longest run of two or more `"0"`
hextets by an empty part, adding empty parts at the ends so that the
final colon-join produces the `::`. -/
def compressHextets (hextets : List String) : List String :=
  match bestZeroRun hextets with
  | (some bestStart, bestLen) =>
    if bestLen > 1 then
      let bestEnd := bestStart + bestLen
      let ext := if bestEnd = hextets.length then hextets ++ [""] else hextets
      let replaced := ext.take bestStart ++ [""] ++ ext.drop bestEnd
      if bestStart = 0 then "" :: replaced else replaced
    else hextets
  | _ => hextets

/-- `str()` of a parsed address: dotted decimal for IPv4; for IPv6 the
lowercase-hex groups with the longest zero run compressed. -/
def ipStr : IpAddr → String
  | .v4 o => String.intercalate "." (o.map natToDec)
  | .v6 g => String.intercalate ":" (compressHextets (g.map natToHex))

/-! ## Query filter construction (lines 38–42) -/

/-- A query filter: either keyed on `remote-address` (rendered as
`'?remote-address=%s'`) or on `name` (rendered as `'?name=%s'`). -/
inductive QueryFilter where
  | remoteAddress (addr : String)
  | name (n : String)
  deriving DecidableEq, Repr

/-- Rendering of a filter as the word passed to `self.talk`. -/
def QueryFilter.toQueryString : QueryFilter → String
  | .remoteAddress a => "?remote-address=" ++ a
  | .name n => "?name=" ++ n

/-- Lines 38–42: `peer = ipaddress.ip_address(peer)` rebinds `peer` to
the parsed address on success, and the filter then renders it in
canonical form; on `ValueError` the original string is used unchanged
in a name filter. -/
def build_filter (peer : String) : QueryFilter :=
  match ip_address peer with
  | some a => .remoteAddress (ipStr a)
  | none => .name peer

/-- The peer designator as it appears in the `not configured` message
(line 48): the canonical parsed address when parsing succeeded (the
variable was rebound), the original string otherwise. -/
def displayPeer (peer : String) : String :=
  match ip_address peer with
  | some a => ipStr a
  | none => peer

/-! ## The surrounding `main` (lines 153–158) -/

/-- The message carried by each `PluginError` of `get_peer_details`. -/
def resolveErrMsg (peer : String) : ResolveErr → String
  | .notConfigured => "Peer '" ++ displayPeer peer ++ "' not configured"
  | .ambiguousResult => "API returned more than one record, cannot handle this"
  | .malformedResponse => "API did not return dict, cannot handle this"

/-- `main` from the fetch onward, as a function of the value the API
returned: a `PluginError` from resolution is caught at lines 157–158
and surfaced via `exit_unknown('{exc}', exc=exc)`; on success the
record is classified (with the `__main__` guard still in effect). -/
def mainVerdict (peer : String) (result : ApiValue) : Verdict :=
  match resolve result with
  | .error e => ⟨.unknown, resolveErrMsg peer e⟩
  | .ok (pd, _) => classifyFull pd

/-- `mentions msg v`: the string `v` occurs contiguously in `msg`. -/
def mentions (msg v : String) : Prop :=
  ∃ pre post : List Char, msg.data = pre ++ v.data ++ post

end Tikapy

section Scratch
open Tikapy
example : classify [("state", "established"), ("remote-address", "10.0.0.1"),
    ("remote-as", "65001"), ("uptime", "3d")] =
    .ok ⟨.ok, "Session to 10.0.0.1 (65001) established for 3d"⟩ := rfl
example : classify [("state", "connect"), ("remote-address", "10.0.0.1"),
    ("remote-as", "65001")] =
    .ok ⟨.critical, "Session to 10.0.0.1 (65001) in connect state"⟩ := rfl
example : classify [] = .ok ⟨.unknown, "Could not parse peer details: 'state'"⟩ := rfl
example : classify [("disabled", "true")] = .error (.keyError "remote-address") := rfl
example : classifyFull [("disabled", "true")] =
    ⟨.unknown, "Unhandled error occured: 'remote-address'"⟩ := rfl
example : classify [("disabled", "false"), ("remote-address", "10.0.0.1"),
    ("remote-as", "65001")] =
    .ok ⟨.warning, "Session to 10.0.0.1 (AS65001) disabled"⟩ := rfl
example : resolve (.dict []) = .error .notConfigured := rfl
example : resolve (.list []) = .error .notConfigured := rfl
example : resolve (.dict [("a", []), ("b", [])]) = .error .ambiguousResult := rfl
example : resolve (.list [[("x", "y")]]) = .error .malformedResponse := rfl
example : resolve (.str "ab") = .error .ambiguousResult := rfl
example : resolve (.pynone) = .error .notConfigured := rfl
example : resolve (.dict [("k", [("state", "established")])]) =
    .ok ([("state", "established")], .dict []) := rfl
example : resolve (.dict [("k1", [("a", "1")]), ("k2", [("b", "2")])]) =
    .error .ambiguousResult := rfl
example : ip_address "10.0.0.1" = some (.v4 [10, 0, 0, 1]) := rfl
example : ip_address "10.0.0.256" = none := rfl
example : ip_address "10.0.0.01" = none := rfl
example : ip_address "10.0.0" = none := rfl
example : ip_address "peer-name" = none := rfl
example : ip_address "2001:0DB8:0:0:0:0:0:1" = some (.v6 [8193, 3512, 0, 0, 0, 0, 0, 1]) := rfl
example : ip_address "::" = some (.v6 [0, 0, 0, 0, 0, 0, 0, 0]) := rfl
example : ip_address "::1" = some (.v6 [0, 0, 0, 0, 0, 0, 0, 1]) := rfl
example : ip_address "1::2::3" = none := rfl
example : ip_address ":::" = none := rfl
example : ip_address ":1:2:3:4:5:6:7" = none := rfl
example : ip_address "1:2:3:4:5:6:7:8" = some (.v6 [1, 2, 3, 4, 5, 6, 7, 8]) := rfl
example : ip_address "1:2:3:4:5:6:7:8:9" = none := rfl
example : ip_address "::ffff:1.2.3.4" = some (.v6 [0, 0, 0, 0, 0, 65535, 258, 772]) := rfl
example : ip_address "fe80::" = some (.v6 [65152, 0, 0, 0, 0, 0, 0, 0]) := rfl
example : ipStr (.v6 [8193, 3512, 0, 0, 0, 0, 0, 1]) = "2001:db8::1" := rfl
example : ipStr (.v6 [0, 0, 0, 0, 0, 0, 0, 0]) = "::" := rfl
example : ipStr (.v6 [0, 0, 0, 0, 0, 0, 0, 1]) = "::1" := rfl
example : ipStr (.v6 [65152, 0, 0, 0, 0, 0, 0, 0]) = "fe80::" := rfl
example : ipStr (.v6 [1, 0, 2, 3, 4, 5, 6, 7]) = "1:0:2:3:4:5:6:7" := rfl
example : ipStr (.v6 [1, 0, 0, 2, 0, 0, 0, 3]) = "1:0:0:2::3" := rfl
example : ipStr (.v4 [10, 0, 0, 1]) = "10.0.0.1" := rfl
example : build_filter "2001:0DB8::1" = .remoteAddress "2001:db8::1" := rfl
example : build_filter "my peer" = .name "my peer" := rfl
example : (build_filter "10.0.0.1").toQueryString = "?remote-address=10.0.0.1" := rfl
example : mainVerdict "10.0.0.1" (.dict []) =
    ⟨.unknown, "Peer '10.0.0.1' not configured"⟩ := rfl
end Scratch

namespace Tikapy

/-! ## Helper lemmas -/

theorem ne_empty_of_length_pos {s : String} (h : 0 < s.length) : s ≠ "" := by
  intro he
  subst he
  simp at h

theorem fmtOk_ne_empty (a b c : String) : fmtOk a b c ≠ "" := by
  apply ne_empty_of_length_pos
  have h : ("Session to " : String).length = 11 := rfl
  simp [fmtOk, String.length_append]
  omega

theorem fmtCritical_ne_empty (a b c : String) : fmtCritical a b c ≠ "" := by
  apply ne_empty_of_length_pos
  have h : ("Session to " : String).length = 11 := rfl
  simp [fmtCritical, String.length_append]
  omega

theorem fmtWarning_ne_empty (a b : String) : fmtWarning a b ≠ "" := by
  apply ne_empty_of_length_pos
  have h : ("Session to " : String).length = 11 := rfl
  simp [fmtWarning, String.length_append]
  omega

theorem fmtParseFail_ne_empty (k : String) : fmtParseFail k ≠ "" := by
  apply ne_empty_of_length_pos
  have h : ("Could not parse peer details: '" : String).length = 31 := rfl
  simp [fmtParseFail, String.length_append]
  omega

theorem fmtUnhandled_ne_empty (k : String) : fmtUnhandled k ≠ "" := by
  apply ne_empty_of_length_pos
  have h : ("Unhandled error occured: '" : String).length = 26 := rfl
  simp [fmtUnhandled, String.length_append]
  omega

theorem fmtOk_mentions (a b c : String) :
    mentions (fmtOk a b c) a ∧ mentions (fmtOk a b c) b ∧ mentions (fmtOk a b c) c := by
  refine ⟨⟨("Session to " : String).data,
      (" (" ++ b ++ ") established for " ++ c : String).data, ?_⟩,
    ⟨("Session to " ++ a ++ " (" : String).data,
      (") established for " ++ c : String).data, ?_⟩,
    ⟨("Session to " ++ a ++ " (" ++ b ++ ") established for " : String).data,
      ([] : List Char), ?_⟩⟩ <;>
    simp [fmtOk, String.data_append]

theorem fmtCritical_mentions (a b c : String) :
    mentions (fmtCritical a b c) a ∧ mentions (fmtCritical a b c) b ∧
      mentions (fmtCritical a b c) c := by
  refine ⟨⟨("Session to " : String).data,
      (" (" ++ b ++ ") in " ++ c ++ " state" : String).data, ?_⟩,
    ⟨("Session to " ++ a ++ " (" : String).data,
      (") in " ++ c ++ " state" : String).data, ?_⟩,
    ⟨("Session to " ++ a ++ " (" ++ b ++ ") in " : String).data,
      (" state" : String).data, ?_⟩⟩ <;>
    simp [fmtCritical, String.data_append]

/-- The `try` body ends in `exit_ok`, in `exit_critical`, or in a
`KeyError` from one of its subscripts. -/
theorem classifyTry_cases (r : PeerRecord) :
    (∃ a b c, classifyTry r = .ok ⟨.ok, fmtOk a b c⟩) ∨
    (∃ a b c, classifyTry r = .ok ⟨.critical, fmtCritical a b c⟩) ∨
    (∃ k, classifyTry r = .error (.keyError k)) := by
  rcases h1 : pyGet r "state" with _ | st
  · exact Or.inr (Or.inr ⟨"state", by simp [classifyTry, pyItem, h1]⟩)
  · by_cases he : st = "established"
    · subst he
      rcases h2 : pyGet r "remote-address" with _ | ra
      · exact Or.inr (Or.inr ⟨"remote-address", by simp [classifyTry, pyItem, h1, h2]⟩)
      · rcases h3 : pyGet r "remote-as" with _ | ras
        · exact Or.inr (Or.inr ⟨"remote-as", by simp [classifyTry, pyItem, h1, h2, h3]⟩)
        · rcases h4 : pyGet r "uptime" with _ | up
          · exact Or.inr (Or.inr ⟨"uptime", by simp [classifyTry, pyItem, h1, h2, h3, h4]⟩)
          · exact Or.inl ⟨ra, ras, up, by simp [classifyTry, pyItem, h1, h2, h3, h4]⟩
    · rcases h2 : pyGet r "remote-address" with _ | ra
      · exact Or.inr (Or.inr ⟨"remote-address", by simp [classifyTry, pyItem, h1, h2, he]⟩)
      · rcases h3 : pyGet r "remote-as" with _ | ras
        · exact Or.inr (Or.inr ⟨"remote-as", by simp [classifyTry, pyItem, h1, h2, h3, he]⟩)
        · exact Or.inr (Or.inl ⟨ra, ras, st, by simp [classifyTry, pyItem, h1, h2, h3, he]⟩)

/-- Every run of the classifier ends in one of four `exit_*` verdicts
or in a propagated `KeyError`. -/
theorem classify_cases (r : PeerRecord) :
    (∃ a b c, classify r = .ok ⟨.ok, fmtOk a b c⟩) ∨
    (∃ a b c, classify r = .ok ⟨.critical, fmtCritical a b c⟩) ∨
    (∃ a b, classify r = .ok ⟨.warning, fmtWarning a b⟩) ∨
    (∃ k, classify r = .ok ⟨.unknown, fmtParseFail k⟩) ∨
    (∃ k, classify r = .error (.keyError k)) := by
  rcases classifyTry_cases r with ⟨a, b, c, h⟩ | ⟨a, b, c, h⟩ | ⟨k, h⟩
  · exact Or.inl ⟨a, b, c, by simp [classify, h]⟩
  · exact Or.inr (Or.inl ⟨a, b, c, by simp [classify, h]⟩)
  · by_cases hd : pyTruthyField (pyGet r "disabled") = true
    · rcases h2 : pyGet r "remote-address" with _ | ra
      · exact Or.inr (Or.inr (Or.inr (Or.inr
          ⟨"remote-address", by simp [classify, h, hd, pyItem, h2]⟩)))
      · rcases h3 : pyGet r "remote-as" with _ | ras
        · exact Or.inr (Or.inr (Or.inr (Or.inr
            ⟨"remote-as", by simp [classify, h, hd, pyItem, h2, h3]⟩)))
        · exact Or.inr (Or.inr (Or.inl
            ⟨ra, ras, by simp [classify, h, hd, pyItem, h2, h3]⟩))
    · exact Or.inr (Or.inr (Or.inr (Or.inl ⟨k, by simp [classify, h, hd]⟩)))

/-! ## Claim theorems -/

/-- C3: for every peer record whose `state` field is present and equals
`"established"` and which contains `remote-address`, `remote-as` and
`uptime`, the classifier returns `OK`, and its message mentions the
`remote-address`, `remote-as` and `uptime` values. -/
theorem classify_established_ok (r : PeerRecord) (ra ras up : String)
    (hs : pyGet r "state" = some "established")
    (hra : pyGet r "remote-address" = some ra)
    (hras : pyGet r "remote-as" = some ras)
    (hup : pyGet r "uptime" = some up) :
    classify r = .ok ⟨.ok, fmtOk ra ras up⟩ ∧
    mentions (fmtOk ra ras up) ra ∧ mentions (fmtOk ra ras up) ras ∧
    mentions (fmtOk ra ras up) up := by
  refine ⟨?_, fmtOk_mentions ra ras up⟩
  unfold classify classifyTry pyItem
  rw [hs, hra, hras, hup]
  simp

/-- Witness for C3 at a concrete record. -/
theorem classify_established_ok_witness :
    classify [("state", "established"), ("remote-address", "10.0.0.1"),
        ("remote-as", "65001"), ("uptime", "3d")] =
      .ok ⟨.ok, fmtOk "10.0.0.1" "65001" "3d"⟩ ∧
    mentions (fmtOk "10.0.0.1" "65001" "3d") "10.0.0.1" ∧
    mentions (fmtOk "10.0.0.1" "65001" "3d") "65001" ∧
    mentions (fmtOk "10.0.0.1" "65001" "3d") "3d" :=
  classify_established_ok
    [("state", "established"), ("remote-address", "10.0.0.1"),
      ("remote-as", "65001"), ("uptime", "3d")]
    "10.0.0.1" "65001" "3d" rfl rfl rfl rfl

/-- C4: for every peer record whose `state` field is present and
differs from `"established"` and which contains `remote-address` and
`remote-as`, the classifier returns `CRITICAL`, and its message
mentions the `remote-address`, `remote-as` and the literal `state`
value. -/
theorem classify_not_established_critical (r : PeerRecord) (ra ras st : String)
    (hs : pyGet r "state" = some st)
    (hne : st ≠ "established")
    (hra : pyGet r "remote-address" = some ra)
    (hras : pyGet r "remote-as" = some ras) :
    classify r = .ok ⟨.critical, fmtCritical ra ras st⟩ ∧
    mentions (fmtCritical ra ras st) ra ∧ mentions (fmtCritical ra ras st) ras ∧
    mentions (fmtCritical ra ras st) st := by
  refine ⟨?_, fmtCritical_mentions ra ras st⟩
  unfold classify classifyTry pyItem
  rw [hs, hra, hras]
  simp [hne]

/-- Witness for C4 at a concrete record. -/
theorem classify_not_established_critical_witness :
    classify [("state", "connect"), ("remote-address", "10.0.0.1"),
        ("remote-as", "65001")] =
      .ok ⟨.critical, fmtCritical "10.0.0.1" "65001" "connect"⟩ ∧
    mentions (fmtCritical "10.0.0.1" "65001" "connect") "10.0.0.1" ∧
    mentions (fmtCritical "10.0.0.1" "65001" "connect") "65001" ∧
    mentions (fmtCritical "10.0.0.1" "65001" "connect") "connect" :=
  classify_not_established_critical
    [("state", "connect"), ("remote-address", "10.0.0.1"), ("remote-as", "65001")]
    "10.0.0.1" "65001" "connect" rfl (by decide) rfl rfl



/-- C1: for every peer record, classification (with the `__main__`
guard in effect) terminates in a verdict with a non-empty descriptive
message; every classification not resolved to `OK`, `CRITICAL` or
`WARNING` is `UNKNOWN`; and any exception the classifier raises past
the initial state check — in particular the `KeyError` of a disabled
peer whose `remote-address` or `remote-as` field is absent — is caught
by the guard and terminates in `UNKNOWN`, never an unhandled failure. -/
theorem classifyFull_total_and_guarded (r : PeerRecord) :
    (classifyFull r).msg ≠ "" ∧
    ((classifyFull r).sev ≠ .ok → (classifyFull r).sev ≠ .critical →
      (classifyFull r).sev ≠ .warning → (classifyFull r).sev = .unknown) ∧
    (∀ k, classify r = .error (.keyError k) →
      classifyFull r = ⟨.unknown, fmtUnhandled k⟩) := by
  refine ⟨?_, ?_, ?_⟩
  · rcases classify_cases r with ⟨a, b, c, h⟩ | ⟨a, b, c, h⟩ | ⟨a, b, h⟩ | ⟨k, h⟩ | ⟨k, h⟩
    · simpa [classifyFull, h] using fmtOk_ne_empty a b c
    · simpa [classifyFull, h] using fmtCritical_ne_empty a b c
    · simpa [classifyFull, h] using fmtWarning_ne_empty a b
    · simpa [classifyFull, h] using fmtParseFail_ne_empty k
    · simpa [classifyFull, h] using fmtUnhandled_ne_empty k
  · intro h1 h2 h3
    cases hsev : (classifyFull r).sev
    · exact absurd hsev h1
    · exact absurd hsev h3
    · exact absurd hsev h2
    · rfl
  · intro k hk
    simp [classifyFull, hk]

/-- Witness for C1 at the record `{disabled: "true"}`: the handler
itself raises, and the guard still produces `UNKNOWN`. -/
theorem classifyFull_total_and_guarded_witness :
    (classifyFull [("disabled", "true")]).msg ≠ "" ∧
    (classifyFull [("disabled", "true")]).sev = .unknown ∧
    classifyFull [("disabled", "true")] =
      ⟨.unknown, fmtUnhandled "remote-address"⟩ :=
  ⟨(classifyFull_total_and_guarded [("disabled", "true")]).1,
   (classifyFull_total_and_guarded [("disabled", "true")]).2.1
     (by decide) (by decide) (by decide),
   (classifyFull_total_and_guarded [("disabled", "true")]).2.2
     "remote-address" rfl⟩

/-- C2 counterexample: the record `{disabled: "true"}` is missing
mandatory fields and its `disabled` field is truthy, yet `classify`
does not return `WARNING` — building the warning message raises
`KeyError('remote-address')`, and even under the top-level guard the
outcome is `UNKNOWN`. -/
theorem classify_disabled_missing_fields_not_warning :
    pyGet [("disabled", "true")] "state" = none ∧
    pyTruthyField (pyGet [("disabled", "true")] "disabled") = true ∧
    classify [("disabled", "true")] = .error (.keyError "remote-address") ∧
    (∀ v : Verdict, classify [("disabled", "true")] ≠ .ok v) ∧
    (classifyFull [("disabled", "true")]).sev = .unknown := by
  refine ⟨rfl, rfl, rfl, ?_, rfl⟩
  intro v hv
  rw [show classify [("disabled", "true")] =
      .error (.keyError "remote-address") from rfl] at hv
  exact Except.noConfusion hv

/-- C2 (amended): for every peer record on which the `try` body fails
with `KeyError(k)`: if `disabled` is truthy and `remote-address` and
`remote-as` are present, `classify` returns `WARNING` with a message
built from them; if `disabled` is falsy or absent, `classify` returns
`UNKNOWN` naming the field `k` that could not be read; in particular
`classify` of the empty record returns `UNKNOWN`. -/
theorem classify_missing_mandatory (r : PeerRecord) (k : String)
    (hfail : classifyTry r = .error (.keyError k)) :
    (pyTruthyField (pyGet r "disabled") = true →
      ∀ ra ras, pyGet r "remote-address" = some ra →
        pyGet r "remote-as" = some ras →
        classify r = .ok ⟨.warning, fmtWarning ra ras⟩) ∧
    (pyTruthyField (pyGet r "disabled") = false →
      classify r = .ok ⟨.unknown, fmtParseFail k⟩) ∧
    classify ([] : PeerRecord) = .ok ⟨.unknown, fmtParseFail "state"⟩ := by
  refine ⟨?_, ?_, rfl⟩
  · intro hd ra ras hra hras
    simp [classify, hfail, hd, pyItem, hra, hras]
  · intro hd
    simp [classify, hfail, hd]

/-- Witness for C2 (amended): a disabled record missing `state`, and
the empty record. -/
theorem classify_missing_mandatory_witness :
    classify [("disabled", "true"), ("remote-address", "10.0.0.1"),
        ("remote-as", "65001")] =
      .ok ⟨.warning, fmtWarning "10.0.0.1" "65001"⟩ ∧
    classify [("remote-address", "10.0.0.1")] =
      .ok ⟨.unknown, fmtParseFail "state"⟩ :=
  ⟨(classify_missing_mandatory
      [("disabled", "true"), ("remote-address", "10.0.0.1"), ("remote-as", "65001")]
      "state" rfl).1 rfl "10.0.0.1" "65001" rfl rfl,
   (classify_missing_mandatory [("remote-address", "10.0.0.1")]
      "state" rfl).2.1 rfl⟩

/-- C9: for every peer record lacking `state` but containing
`remote-address` and `remote-as`, the raw string value of `disabled`
decides the branch by Python truthiness, not boolean meaning: any
non-empty value — including the string `"false"` — yields `WARNING`,
while an absent key or the empty string yields `UNKNOWN`. -/
theorem classify_truthiness_of_disabled (r : PeerRecord) (ra ras : String)
    (hs : pyGet r "state" = none)
    (hra : pyGet r "remote-address" = some ra)
    (hras : pyGet r "remote-as" = some ras) :
    (∀ d, pyGet r "disabled" = some d → d ≠ "" →
      classify r = .ok ⟨.warning, fmtWarning ra ras⟩) ∧
    (pyGet r "disabled" = none ∨ pyGet r "disabled" = some "" →
      classify r = .ok ⟨.unknown, fmtParseFail "state"⟩) := by
  have hfail : classifyTry r = .error (.keyError "state") := by
    simp [classifyTry, pyItem, hs]
  constructor
  · intro d hd hne
    simp [classify, hfail, pyTruthyField, hd, hne, pyItem, hra, hras]
  · intro hd
    rcases hd with hd | hd <;> simp [classify, hfail, pyTruthyField, hd]

/-- Witness for C9: the value `"false"` is truthy, so the peer is
reported `WARNING`; without the key the verdict is `UNKNOWN`. -/
theorem classify_truthiness_of_disabled_witness :
    classify [("disabled", "false"), ("remote-address", "10.0.0.1"),
        ("remote-as", "65001")] =
      .ok ⟨.warning, fmtWarning "10.0.0.1" "65001"⟩ ∧
    classify [("remote-address", "10.0.0.1"), ("remote-as", "65001")] =
      .ok ⟨.unknown, fmtParseFail "state"⟩ :=
  ⟨(classify_truthiness_of_disabled
      [("disabled", "false"), ("remote-address", "10.0.0.1"), ("remote-as", "65001")]
      "10.0.0.1" "65001" rfl rfl rfl).1 "false" rfl (by decide),
   (classify_truthiness_of_disabled
      [("remote-address", "10.0.0.1"), ("remote-as", "65001")]
      "10.0.0.1" "65001" rfl rfl rfl).2 (Or.inl rfl)⟩



/-- C5: `build_filter` is a total function on strings: whenever the
identifier parses as a full IPv4 or IPv6 address literal it returns an
address-keyed filter carrying the canonical printed form of the parsed
address, and whenever parsing fails (`ValueError`) it returns a
name-keyed filter carrying the original string unchanged. -/
theorem build_filter_total_dispatch (s : String) :
    (∀ a, ip_address s = some a → build_filter s = .remoteAddress (ipStr a)) ∧
    (ip_address s = none → build_filter s = .name s) := by
  constructor
  · intro a h
    simp [build_filter, h]
  · intro h
    simp [build_filter, h]

/-- Witness for C5: an IPv6 literal in non-canonical spelling is
rewritten to canonical form, and a non-address string is kept
verbatim as a name. -/
theorem build_filter_total_dispatch_witness :
    build_filter "2001:0DB8:0:0:0:0:0:1" = .remoteAddress "2001:db8::1" ∧
    build_filter "peer-name" = .name "peer-name" := by
  constructor
  · have h := (build_filter_total_dispatch "2001:0DB8:0:0:0:0:0:1").1
      (.v6 [8193, 3512, 0, 0, 0, 0, 0, 1]) rfl
    rw [show ipStr (.v6 [8193, 3512, 0, 0, 0, 0, 0, 1]) = "2001:db8::1" from rfl] at h
    exact h
  · exact (build_filter_total_dispatch "peer-name").2 rfl

/-- C6: resolution of an empty collection always fails with
`NotConfigured`, and resolution of a collection with more than one
record always fails with `AmbiguousResult`, regardless of content. -/
theorem resolve_empty_or_ambiguous (v : ApiValue) :
    (pyLen v = 0 → resolve v = .error .notConfigured) ∧
    (pyLen v > 1 → resolve v = .error .ambiguousResult) := by
  constructor
  · intro h
    cases v with
    | dict es =>
      cases es with
      | nil => rfl
      | cons e t => simp [pyLen] at h
    | list xs =>
      cases xs with
      | nil => rfl
      | cons x t => simp [pyLen] at h
    | str s =>
      have hs : s = "" := by
        cases s with
        | mk cs => cases cs with
          | nil => rfl
          | cons c t => simp [pyLen, String.length] at h
      subst hs
      rfl
    | pynone => rfl
  · intro h
    have ht : pyTruthy v = true := by
      cases v with
      | dict es => cases es with
        | nil => simp [pyLen] at h
        | cons e t => simp [pyTruthy]
      | list xs => cases xs with
        | nil => simp [pyLen] at h
        | cons x t => simp [pyTruthy]
      | str s => cases s with
        | mk cs => cases cs with
          | nil => simp [pyLen, String.length] at h
          | cons c t => simp [pyTruthy, String.ext_iff]
      | pynone => simp [pyLen] at h
    simp [resolve, ht, h]

/-- Witness for C6: the empty dictionary and a two-record
dictionary. -/
theorem resolve_empty_or_ambiguous_witness :
    resolve (.dict []) = .error .notConfigured ∧
    resolve (.dict [("k1", [("a", "1")]), ("k2", [("b", "2")])]) =
      .error .ambiguousResult :=
  ⟨(resolve_empty_or_ambiguous (.dict [])).1 rfl,
   (resolve_empty_or_ambiguous
      (.dict [("k1", [("a", "1")]), ("k2", [("b", "2")])])).2 (by decide)⟩

/-- C7 counterexample: the empty list is not a keyed collection of
fields, yet `resolve` fails with `NotConfigured`, not
`MalformedResponse` — the emptiness check of line 47 fires before
`popitem` can fail. -/
theorem resolve_empty_list_not_malformed :
    (∀ es, ApiValue.list [] ≠ ApiValue.dict es) ∧
    resolve (.list []) = .error .notConfigured ∧
    resolve (.list []) ≠ .error .malformedResponse := by
  refine ⟨fun es h => ApiValue.noConfusion h, rfl, ?_⟩
  intro h
  rw [show resolve (.list []) = .error .notConfigured from rfl] at h
  have := Except.error.inj h
  exact ResolveErr.noConfusion this

/-- C7 (amended): for every returned value that is not a keyed
collection (mapping) of fields and that survives the preceding checks
— it is non-empty and holds at most one element — `resolve` fails with
`MalformedResponse`; an empty value fails with `NotConfigured` and a
longer one with `AmbiguousResult` first. -/
theorem resolve_nondict_malformed (v : ApiValue)
    (hnd : ∀ es, v ≠ ApiValue.dict es)
    (ht : pyTruthy v = true)
    (hlen : pyLen v ≤ 1) :
    resolve v = .error .malformedResponse := by
  cases v with
  | dict es => exact absurd rfl (hnd es)
  | list xs => simp [resolve, ht, Nat.not_lt.mpr hlen]
  | str s => simp [resolve, ht, Nat.not_lt.mpr hlen]
  | pynone => simp [pyTruthy] at ht

/-- Witness for C7 (amended): a singleton list of records. -/
theorem resolve_nondict_malformed_witness :
    resolve (.list [[("x", "y")]]) = .error .malformedResponse :=
  resolve_nondict_malformed (.list [[("x", "y")]])
    (fun es h => ApiValue.noConfusion h) rfl (by decide)

/-- C8: every resolution failure — `NotConfigured`, `AmbiguousResult`
or `MalformedResponse` — is terminal: `main` surfaces it as an
`UNKNOWN` verdict carrying the `PluginError` message, never as any
other severity, and performs no further resolution attempt. -/
theorem resolution_failure_surfaced_unknown (peer : String) (result : ApiValue)
    (e : ResolveErr) (h : resolve result = .error e) :
    mainVerdict peer result = ⟨.unknown, resolveErrMsg peer e⟩ ∧
    (mainVerdict peer result).sev = .unknown := by
  constructor
  · simp [mainVerdict, h]
  · simp [mainVerdict, h]

/-- Witness for C8: a peer whose filter matched nothing. -/
theorem resolution_failure_surfaced_unknown_witness :
    mainVerdict "10.0.0.1" (.dict []) =
      ⟨.unknown, resolveErrMsg "10.0.0.1" .notConfigured⟩ ∧
    (mainVerdict "10.0.0.1" (.dict [])).sev = .unknown :=
  resolution_failure_surfaced_unknown "10.0.0.1" (.dict []) .notConfigured rfl

/-- C10: `resolve` is not side-effect-free on its input: `popitem`
removes the returned entry, so resolving a singleton mapping returns
its single record value and leaves the mapping empty. -/
theorem resolve_singleton_removes_entry (k : String) (pd : PeerRecord) :
    resolve (.dict [(k, pd)]) = .ok (pd, .dict []) := rfl

end Tikapy

